import Mathlib

/-!
Verification development for the magellanicus renderer.

The Rust sources under src/magellanicus are shallowly embedded below.
Pure data and control flow are translated directly; the Vulkan backend
calls are abstracted into a trace of abstract draw commands, and the
files of the repository that are not present under src/ (error.rs,
renderer/data.rs, the parameters module root, the crate-root vertex
module and the vulkan pipeline module root) are modelled from the
specification, each with a doc comment saying so.
-/

namespace Magellanicus

/-- Resolution, as carried by RendererParameters (width and height in pixels). -/
structure Resolution where
  width : Nat
  height : Nat
deriving DecidableEq

/-- Modelled from the spec: the parameters module root is not under src/.
Per the spec, construction parameters carry a resolution, the number of
viewports (1-4), vsync, and an optional anisotropic filtering level
(the helper module of the source reads vsync and anisotropic_filtering). -/
structure RendererParameters where
  resolution : Resolution
  number_of_viewports : Nat
  vsync : Bool := false
  anisotropic_filtering : Option ℚ := none
deriving DecidableEq

/-- Modelled from the spec: error.rs is not under src/. The code under
src/ constructs the variants DataError (renderer.rs, via
from_data_error_string and directly) and GraphicsAPIError (vulkan.rs);
the spec taxonomy additionally names InvalidData, NotFound,
AlreadyExists and SwapchainOutOfDate, which are included so that
spec-level claims about error kinds can be stated. -/
inductive Error where
  | DataError (error : String)
  | GraphicsAPIError (backend : String) (error : String)
  | InvalidData (error : String)
  | NotFound (error : String)
  | AlreadyExists (error : String)
  | SwapchainOutOfDate
deriving DecidableEq

/-- Mirrors Error::from_data_error_string: the sibling constructor
from_vulkan_error visible in vulkan.rs builds GraphicsAPIError, and this
one names the DataError variant it builds. -/
def Error.from_data_error_string (error : String) : Error :=
  Error.DataError error

deriving instance DecidableEq for Except

/-- A BTreeMap keyed by the shared string path, embedded as an
association list with unique keys; insert replaces an existing binding. -/
abbrev PathMap (α : Type) : Type := List (String × α)

/-- BTreeMap::contains_key. -/
def PathMap.containsKey {α : Type} (m : PathMap α) (k : String) : Bool :=
  m.any (fun e => e.1 == k)

/-- BTreeMap::get. -/
def PathMap.get? {α : Type} (m : PathMap α) (k : String) : Option α :=
  (m.find? (fun e => e.1 == k)).map (fun e => e.2)

/-- BTreeMap::insert (replaces the value when the key is present). -/
def PathMap.insert {α : Type} (m : PathMap α) (k : String) (v : α) : PathMap α :=
  if m.containsKey k then
    m.map (fun e => if e.1 == k then (k, v) else e)
  else
    m ++ [(k, v)]

/-- The empty map. -/
def PathMap.empty {α : Type} : PathMap α := []

/-! ## Vertex primitives

Modelled from the spec: the crate-root vertex module is not under src/.
Per the spec a model vertex carries position, normal, binormal and
tangent (texture coordinates ride along with the shader vertices of a
BSP material), a lightmap vertex carries dedicated lightmap texture
coordinates, and a triangle is three indices. Floating point components
are idealised as rationals. -/

/-- Modelled from the spec: a model vertex (crate::vertex::ModelVertex). -/
structure ModelVertex where
  position : ℚ × ℚ × ℚ
  normal : ℚ × ℚ × ℚ
  binormal : ℚ × ℚ × ℚ
  tangent : ℚ × ℚ × ℚ
  texture_coords : ℚ × ℚ
deriving DecidableEq

/-- Modelled from the spec: a lightmap vertex (crate::vertex::LightmapVertex). -/
structure LightmapVertex where
  lightmap_texture_coords : ℚ × ℚ
deriving DecidableEq

/-- Modelled from the spec: a triangle of three u16 indices
(crate::vertex::ModelTriangle). -/
structure ModelTriangle where
  indices : Nat × Nat × Nat
deriving DecidableEq

/-! ## Bitmap parameters

Modelled from the spec: the parameters module root (AddBitmapParameter
and friends) is not under src/; the shapes below follow the spec data
model and the usage visible in flycam-test. -/

/-- Pixel formats, as listed by the spec and by the flycam-test mapping. -/
inductive BitmapFormat where
  | A8 | Y8 | AY8 | A8Y8 | R5G6B5 | A1R5G5B5 | A4R4G4B4
  | X8R8G8B8 | A8R8G8B8 | DXT1 | DXT3 | DXT5 | P8 | BC7
deriving DecidableEq

/-- Edge length in pixels of one encoded block of the format. -/
def BitmapFormat.block_pixel_length : BitmapFormat → Nat
  | .DXT1 | .DXT3 | .DXT5 | .BC7 => 4
  | _ => 1

/-- Bytes per encoded block of the format. -/
def BitmapFormat.block_byte_size : BitmapFormat → Nat
  | .A8 | .Y8 | .AY8 | .P8 => 1
  | .A8Y8 | .R5G6B5 | .A1R5G5B5 | .A4R4G4B4 => 2
  | .X8R8G8B8 | .A8R8G8B8 => 4
  | .DXT1 => 8
  | .DXT3 | .DXT5 | .BC7 => 16

/-- Bitmap kind: 2D, 3D with depth, or cubemap. -/
inductive BitmapType where
  | Dim2D
  | Dim3D (depth : Nat)
  | Cubemap
deriving DecidableEq

/-- A sprite entry of a sprite sequence. -/
structure BitmapSprite where
  bitmap : Nat
  top : ℚ
  left : ℚ
  bottom : ℚ
  right : ℚ
deriving DecidableEq

/-- A sequence: either sprites or a first/count range of sub-bitmaps. -/
inductive AddBitmapSequenceParameter where
  | Sprites (sprites : List BitmapSprite)
  | Bitmap (first : Nat) (count : Nat)
deriving DecidableEq

/-- One sub-bitmap: format, kind, resolution, mipmap count and raw bytes. -/
structure AddBitmapBitmapParameter where
  format : BitmapFormat
  bitmap_type : BitmapType
  resolution : Resolution
  mipmap_count : Nat
  data : List Nat
deriving DecidableEq

/-- The parameter object of add_bitmap: sub-bitmaps plus sequences. -/
structure AddBitmapParameter where
  bitmaps : List AddBitmapBitmapParameter
  sequences : List AddBitmapSequenceParameter
deriving DecidableEq

/-- Number of encoded blocks of mip level i of a sub-bitmap: the mip
dimensions halve per level (not below 1), are divided into blocks
rounding up, and 3D depth (halving likewise) and the six cubemap faces
multiply the count. -/
def mip_block_count (b : AddBitmapBitmapParameter) (i : Nat) : Nat :=
  let bl := b.format.block_pixel_length
  let w := max 1 (b.resolution.width / 2 ^ i)
  let h := max 1 (b.resolution.height / 2 ^ i)
  let layers :=
    match b.bitmap_type with
    | .Dim2D => 1
    | .Dim3D depth => max 1 (depth / 2 ^ i)
    | .Cubemap => 6
  ((w + bl - 1) / bl) * ((h + bl - 1) / bl) * layers

/-- Expected byte length of the pixel data of a sub-bitmap: the sum over
all mip levels of block count times bytes per block. -/
def bitmap_data_expected_length (b : AddBitmapBitmapParameter) : Nat :=
  ((List.range b.mipmap_count).map (fun i => mip_block_count b i)).sum * b.format.block_byte_size

/-- Whether every sub-bitmap index referenced by the sequence is in
range for a bitmap with n sub-bitmaps. -/
def sequence_in_range (n : Nat) : AddBitmapSequenceParameter → Bool
  | .Sprites sprites => sprites.all (fun s => s.bitmap < n)
  | .Bitmap first count => first + count ≤ n

/-- Modelled from the spec: AddBitmapParameter::validate is not under
src/. Per the spec, each sub-bitmap must carry exactly the expected
number of pixel bytes and every sequence reference must be in range;
violations are InvalidData. -/
def AddBitmapParameter.validate (p : AddBitmapParameter) : Except Error Unit :=
  if p.bitmaps.all (fun b => b.data.length == bitmap_data_expected_length b) then
    if p.sequences.all (fun s => sequence_in_range p.bitmaps.length s) then
      Except.ok ()
    else
      Except.error (Error.InvalidData "sequence refers to an out-of-range sub-bitmap")
  else
    Except.error (Error.InvalidData "sub-bitmap pixel data length mismatch")

/-- Modelled from the spec: data.rs is not under src/. The GPU-resident
bitmap keeps one image per sub-bitmap (validation of BSP lightmap
indices reads the length of this list). -/
structure Bitmap where
  bitmaps : List AddBitmapBitmapParameter
deriving DecidableEq

/-! ## Shader parameters and data -/

/-- Shader kinds, as listed by the spec and used by flycam-test. -/
inductive ShaderType where
  | Environment | Model | TransparentChicago | TransparentGeneric
  | TransparentGlass | TransparentMeter | TransparentPlasma | TransparentWater
deriving DecidableEq

/-- Modelled from the spec: whether the shader kind is transparent
(the Transparent* kinds are; Environment and Model are opaque). -/
def ShaderType.is_transparent : ShaderType → Bool
  | .Environment | .Model => false
  | _ => true

/-- Basic shader data: optional base bitmap path plus the shader kind
(simple_shader.rs reads the bitmap field as an Option). -/
structure AddShaderBasicShaderData where
  bitmap : Option String
  shader_type : ShaderType
deriving DecidableEq

/-- The tagged shader data union. -/
inductive AddShaderData where
  | BasicShader (d : AddShaderBasicShaderData)
deriving DecidableEq

/-- The parameter object of add_shader. -/
structure AddShaderParameter where
  data : AddShaderData
deriving DecidableEq

/-- Modelled from the spec: data.rs is not under src/. A loaded shader
record keeps its kind, whether its pipeline is transparent (the draw
loop partitions geometries by this flag) and its base bitmap path. -/
structure Shader where
  shader_type : ShaderType
  is_transparent : Bool
  base_bitmap : Option String
deriving DecidableEq

/-! ## BSP parameters (renderer/parameters/bsp.rs, present under src/) -/

/-- One material of a lightmap set (bsp.rs). -/
structure AddBSPParameterLightmapMaterial where
  shader_vertices : List ModelVertex
  lightmap_vertices : Option (List LightmapVertex)
  indices : List ModelTriangle
  shader : String
deriving DecidableEq

/-- One lightmap set of a BSP (bsp.rs). -/
structure AddBSPParameterLightmapSet where
  lightmap_index : Option Nat
  materials : List AddBSPParameterLightmapMaterial
deriving DecidableEq

/-- The parameter object of add_bsp (bsp.rs). -/
structure AddBSPParameter where
  lightmap_bitmap : Option String
  lightmap_sets : List AddBSPParameterLightmapSet
deriving DecidableEq

/-- The inner material loop of AddBSPParameter::validate: parity of the
lightmap vertex count with the shader vertex count, then the check that
lightmap vertices only appear when a lightmap bitmap is set. -/
def validate_materials (has_lightmap_bitmap : Bool) :
    List AddBSPParameterLightmapMaterial → Except String Unit
  | [] => Except.ok ()
  | material :: rest =>
    let vertex_count := material.shader_vertices.length
    match material.lightmap_vertices with
    | some lv =>
      if lv.length ≠ vertex_count then
        Except.error "BSP material has a shader vertex count differing from its lightmap vertex count"
      else if ¬ has_lightmap_bitmap then
        Except.error "BSP material has lightmap vertices when no lightmap bitmap is set"
      else
        validate_materials has_lightmap_bitmap rest
    | none => validate_materials has_lightmap_bitmap rest

/-- The outer lightmap-set loop of AddBSPParameter::validate: each set
with a bitmap index needs the BSP lightmap bitmap to be set and the
index to be in range of its sub-bitmap count, then the materials are
checked. -/
def validate_lightmap_sets (lightmap_bitmap : Option Bitmap) :
    List AddBSPParameterLightmapSet → Except String Unit
  | [] => Except.ok ()
  | lightmap :: rest =>
    let head_result :=
      match lightmap.lightmap_index with
      | some bitmap_index =>
        match lightmap_bitmap with
        | none => Except.error "BSP lightmap has a bitmap index, but no lightmap bitmap is set"
        | some bitmap =>
          if bitmap_index ≥ bitmap.bitmaps.length then
            Except.error "BSP lightmap refers to an out-of-range bitmap index"
          else
            Except.ok ()
      | none => Except.ok ()
    match head_result with
    | Except.error e => Except.error e
    | Except.ok () =>
      match validate_materials lightmap_bitmap.isSome lightmap.materials with
      | Except.error e => Except.error e
      | Except.ok () => validate_lightmap_sets lightmap_bitmap rest

/-! ## Loaded data model (data.rs is not under src/) -/

/-- Modelled from the spec: a loaded geometry is one draw unit with the
path of its shader, an optional lightmap sub-bitmap index, the length of
its index buffer, its vertex count, and whether a dedicated lightmap
texture coordinate buffer is present (the draw loop reads exactly these). -/
structure Geometry where
  shader : String
  lightmap_index : Option Nat
  index_len : Nat
  vertex_count : Nat
  has_lightmap_texture_coords : Bool
deriving DecidableEq

/-- Modelled from the spec: a cluster of the spatial partition holds an
optional sky path; the geometric containment test is abstracted into a
stored flag (no cluster geometry appears under src/). -/
structure Cluster where
  sky : Option String
  contains_camera : Bool
deriving DecidableEq

/-- Modelled from the spec: the spatial partition of a BSP. -/
structure BSPData where
  clusters : List Cluster
deriving DecidableEq

/-- Modelled from the spec: BSPData::find_cluster locates the cluster
containing the camera position; with containment abstracted to a flag it
is the first cluster whose flag holds. -/
def BSPData.find_cluster (d : BSPData) : Option Nat :=
  d.clusters.findIdx? (fun c => c.contains_camera)

/-- Modelled from the spec: GPU data of a loaded BSP; lightmap_images
holds the sub-bitmap indices for which a lightmap image exists
(upload_lightmap_data looks indices up in it). -/
structure BSPVulkanData where
  lightmap_images : List Nat
deriving DecidableEq

/-- Modelled from the spec: a loaded BSP is its geometries in order (one
per material of each lightmap set), the spatial partition and GPU data. -/
structure BSP where
  geometries : List Geometry
  bsp_data : BSPData
  vulkan : BSPVulkanData
deriving DecidableEq

/-- BSP::default, used by the draw loop when no BSP is current. -/
def BSP.default : BSP :=
  { geometries := [], bsp_data := { clusters := [] }, vulkan := { lightmap_images := [] } }

/-- Modelled from the spec: a sky holds indoor and outdoor fog colors
(RGB) and a fog density. -/
structure Sky where
  indoor_fog_color : ℚ × ℚ × ℚ
  outdoor_fog_color : ℚ × ℚ × ℚ
  fog_density : ℚ
deriving DecidableEq

/-! ## Player viewports (player_viewport.rs; the fullbright flag of the
camera is read by vulkan.rs) -/

/-- Camera data: field of view, position, rotation, and the fullbright
flag consulted by the draw loop. -/
structure Camera where
  fov : ℚ
  position : ℚ × ℚ × ℚ
  rotation : ℚ × ℚ × ℚ
  fullbright : Bool
deriving DecidableEq

/-- A player viewport: relative rectangle (0-1) plus camera. -/
structure PlayerViewport where
  rel_x : ℚ
  rel_y : ℚ
  rel_width : ℚ
  rel_height : ℚ
  camera : Camera
deriving DecidableEq

/-- The default camera of player_viewport.rs. -/
def Camera.default : Camera :=
  { fov := 1, position := (0, 0, 0), rotation := (0, 1, 0), fullbright := false }

/-- The default full-window player viewport of player_viewport.rs. -/
def PlayerViewport.default : PlayerViewport :=
  { rel_x := 0, rel_y := 0, rel_width := 1, rel_height := 1, camera := Camera.default }

/-! ## The renderer registry (renderer.rs) -/

/-- The renderer state: the five path-keyed mappings, the current BSP
path, the configured player viewports, and the current resolution held
by the backend (the Vulkan device state itself is abstracted away). -/
structure Renderer where
  player_viewports : List PlayerViewport
  bitmaps : PathMap Bitmap
  shaders : PathMap Shader
  geometries : PathMap Geometry
  skies : PathMap Sky
  bsps : PathMap BSP
  current_bsp : Option String
  current_resolution : Resolution
deriving DecidableEq

/-- Renderer::new: rejects a viewport count outside 1..=4 with a
DataError; otherwise starts with empty mappings, no current BSP, and --
as the source leaves the TODO of populating them -- an empty
player_viewports vector (Vec::with_capacity only reserves). The Vulkan
backend construction is abstracted away. -/
def Renderer.new (parameters : RendererParameters) : Except Error Renderer :=
  if ¬ (1 ≤ parameters.number_of_viewports ∧ parameters.number_of_viewports ≤ 4) then
    Except.error (Error.DataError "number of viewports out of the supported range 1-4")
  else
    Except.ok {
      player_viewports := [],
      bitmaps := PathMap.empty,
      shaders := PathMap.empty,
      geometries := PathMap.empty,
      skies := PathMap.empty,
      bsps := PathMap.empty,
      current_bsp := none,
      current_resolution := parameters.resolution
    }

/-- Renderer::reset: clears the five mappings and the current BSP. -/
def Renderer.reset (r : Renderer) : Renderer :=
  { r with
    bitmaps := PathMap.empty,
    shaders := PathMap.empty,
    geometries := PathMap.empty,
    skies := PathMap.empty,
    bsps := PathMap.empty,
    current_bsp := none }

/-- Modelled from the spec: Bitmap::load_from_parameters (data.rs is not
under src/) constructs the GPU-resident form, one image per sub-bitmap. -/
def Bitmap.load_from_parameters (_r : Renderer) (p : AddBitmapParameter) : Except Error Bitmap :=
  Except.ok { bitmaps := p.bitmaps }

/-- Renderer::add_bitmap, mirroring renderer.rs: the duplicate check
consults the bsps mapping (as written in the source), then the
parameters are validated, loaded and inserted into the bitmaps mapping.
A mutating method returning MResult of Unit is embedded as a pair of the
result and the post state (an early return leaves the state unchanged). -/
def Renderer.add_bitmap (r : Renderer) (path : String) (bitmap : AddBitmapParameter) :
    Except Error Unit × Renderer :=
  if r.bsps.containsKey path then
    (Except.error (Error.from_data_error_string (path ++ " already exists (replacing bitmaps is not yet supported)")), r)
  else
    match bitmap.validate with
    | Except.error e => (Except.error e, r)
    | Except.ok () =>
      match Bitmap.load_from_parameters r bitmap with
      | Except.error e => (Except.error e, r)
      | Except.ok loaded => (Except.ok (), { r with bitmaps := r.bitmaps.insert path loaded })

/-- Modelled from the spec: AddShaderParameter::validate is not under
src/. Per the spec the base-bitmap dependency must already be loaded
(InvalidData otherwise); a missing base bitmap falls back to a default
and passes. -/
def AddShaderParameter.validate (p : AddShaderParameter) (r : Renderer) : Except Error Unit :=
  match p.data with
  | .BasicShader d =>
    match d.bitmap with
    | none => Except.ok ()
    | some b =>
      if r.bitmaps.containsKey b then
        Except.ok ()
      else
        Except.error (Error.InvalidData ("shader refers to bitmap " ++ b ++ " which is not loaded"))

/-- Modelled from the spec: Shader::load_from_parameters (data.rs is not
under src/) records the kind, the transparency flag that drives the
pipeline choice, and the base bitmap path. -/
def Shader.load_from_parameters (_r : Renderer) (p : AddShaderParameter) : Except Error Shader :=
  match p.data with
  | .BasicShader d =>
    Except.ok { shader_type := d.shader_type,
                is_transparent := d.shader_type.is_transparent,
                base_bitmap := d.bitmap }

/-- Renderer::add_shader, mirroring renderer.rs: the duplicate check
consults the bsps mapping (as written in the source), then the shader is
validated, loaded and inserted into the shaders mapping. -/
def Renderer.add_shader (r : Renderer) (path : String) (shader : AddShaderParameter) :
    Except Error Unit × Renderer :=
  if r.bsps.containsKey path then
    (Except.error (Error.from_data_error_string (path ++ " already exists (replacing shaders is not yet supported)")), r)
  else
    match shader.validate r with
    | Except.error e => (Except.error e, r)
    | Except.ok () =>
      match Shader.load_from_parameters r shader with
      | Except.error e => (Except.error e, r)
      | Except.ok loaded => (Except.ok (), { r with shaders := r.shaders.insert path loaded })

/-- AddBSPParameter::validate (bsp.rs): resolve the lightmap bitmap if
one is named (it must be loaded), then walk the lightmap sets. -/
def AddBSPParameter.validate (p : AddBSPParameter) (r : Renderer) : Except String Unit :=
  match p.lightmap_bitmap with
  | some path =>
    match r.bitmaps.get? path with
    | none => Except.error ("BSP refers to lightmap bitmap " ++ path ++ " which is not loaded in the renderer")
    | some bitmap => validate_lightmap_sets (some bitmap) p.lightmap_sets
  | none => validate_lightmap_sets none p.lightmap_sets

/-- The geometries a BSP parameter set loads to: one geometry per
material, in lightmap-set order, carrying the shader path, the lightmap
index of its set, the index buffer length (three indices per triangle),
the vertex count and whether lightmap texture coordinates exist. -/
def bsp_parameter_geometries (p : AddBSPParameter) : List Geometry :=
  (p.lightmap_sets.map (fun s =>
    s.materials.map (fun m =>
      { shader := m.shader,
        lightmap_index := s.lightmap_index,
        index_len := 3 * m.indices.length,
        vertex_count := m.shader_vertices.length,
        has_lightmap_texture_coords := m.lightmap_vertices.isSome : Geometry }))).flatten

/-- Modelled from the spec: BSP::load_from_parameters (data.rs is not
under src/). Per the spec, add_bsp validates each material shader
dependency: a material whose shader path is not loaded is InvalidData.
On success the BSP record holds one geometry per material and a lightmap
image per lightmap index used. The cluster partition is not part of the
parameter object under src/, so it loads empty. -/
def BSP.load_from_parameters (r : Renderer) (p : AddBSPParameter) : Except Error BSP :=
  if p.lightmap_sets.all (fun s => s.materials.all (fun m => r.shaders.containsKey m.shader)) then
    Except.ok {
      geometries := bsp_parameter_geometries p,
      bsp_data := { clusters := [] },
      vulkan := { lightmap_images := (p.lightmap_sets.filterMap (fun s => s.lightmap_index)).dedup }
    }
  else
    Except.error (Error.InvalidData "BSP refers to a shader which is not loaded in the renderer")

/-- Renderer::add_bsp, mirroring renderer.rs: duplicate check on the
bsps mapping, then validate (its String error converts to the data-error
kind), then load and insert. -/
def Renderer.add_bsp (r : Renderer) (path : String) (bsp : AddBSPParameter) :
    Except Error Unit × Renderer :=
  if r.bsps.containsKey path then
    (Except.error (Error.from_data_error_string (path ++ " already exists (replacing BSPs is not yet supported)")), r)
  else
    match bsp.validate r with
    | Except.error e => (Except.error (Error.DataError e), r)
    | Except.ok () =>
      match BSP.load_from_parameters r bsp with
      | Except.error e => (Except.error e, r)
      | Except.ok loaded => (Except.ok (), { r with bsps := r.bsps.insert path loaded })

/-- Renderer::set_current_bsp, mirroring renderer.rs: with some path the
stored key equal to it is searched in the bsps mapping; absence is an
error built by from_data_error_string and the state is untouched; with
none the current BSP is cleared. -/
def Renderer.set_current_bsp (r : Renderer) (path : Option String) :
    Except Error Unit × Renderer :=
  match path with
  | some p =>
    let key := (r.bsps.find? (fun f => f.1 == p)).map (fun f => f.1)
    if key.isNone then
      (Except.error (Error.from_data_error_string ("cannot set current BSP to " ++ p ++ ": that BSP is not loaded")), r)
    else
      (Except.ok (), { r with current_bsp := key })
  | none => (Except.ok (), { r with current_bsp := none })

/-! ## Pipeline catalog (vulkan/pipeline/pipeline_loader.rs,
simple_texture.rs, solid_color.rs) -/

/-- DepthAccess (pipeline_loader.rs), with DepthReadOnly as the default. -/
inductive DepthAccess where
  | DepthReadOnlyTransparent
  | DepthReadOnly
  | DepthWrite
  | NoDepth
deriving DecidableEq

/-- Vulkan depth compare operations. -/
inductive CompareOp where
  | Never | Less | Equal | LessOrEqual | Greater | NotEqual | GreaterOrEqual | Always
deriving DecidableEq

/-- The depth portion of the depth-stencil state of a pipeline. -/
structure DepthState where
  write_enable : Bool
  compare_op : CompareOp
deriving DecidableEq

/-- Attachment blend as constructed under src/: the only blend the
sources build is AttachmentBlend::additive. -/
inductive AttachmentBlend where
  | additive
deriving DecidableEq

/-- Color blend attachment state: an optional blend (the default has none). -/
structure ColorBlendAttachmentState where
  blend : Option AttachmentBlend := none
deriving DecidableEq

/-- Multisample count. -/
inductive SampleCount where
  | Sample1 | Sample2 | Sample4 | Sample8
deriving DecidableEq

/-- The vertex buffer descriptions bound by the pipelines under src/. -/
inductive VertexBufferKind where
  | modelVertex
  | textureCoords
  | lightmapTextureCoords
deriving DecidableEq

/-- Front face winding. -/
inductive FrontFace where
  | Clockwise | CounterClockwise
deriving DecidableEq

/-- PipelineSettings (pipeline_loader.rs); the color format is
irrelevant to every claim and omitted. Defaults follow the Default impl
of the source (DepthReadOnly, no blend, one sample). -/
structure PipelineSettings where
  depth_access : DepthAccess := DepthAccess.DepthReadOnly
  vertex_buffer_descriptions : List VertexBufferKind := []
  color_blend_attachment_state : ColorBlendAttachmentState := {}
  samples : SampleCount := SampleCount.Sample1
deriving DecidableEq

/-- The observable state of a built graphics pipeline: the fields of
GraphicsPipelineCreateInfo that load_pipeline derives from its settings. -/
structure BuiltPipeline where
  depth : DepthState
  blend : ColorBlendAttachmentState
  samples : SampleCount
  front_face : FrontFace
  vertex_buffer_descriptions : List VertexBufferKind
deriving DecidableEq

/-- load_pipeline (pipeline_loader.rs): depth writes are enabled exactly
for DepthWrite; the compare op is LessOrEqual for DepthWrite, Equal for
DepthReadOnly, LessOrEqual for DepthReadOnlyTransparent and Always for
NoDepth; the front face is clockwise; blend and samples come from the
settings. -/
def load_pipeline (settings : PipelineSettings) : BuiltPipeline :=
  { depth := {
      write_enable := settings.depth_access == DepthAccess.DepthWrite,
      compare_op :=
        match settings.depth_access with
        | DepthAccess.DepthWrite => CompareOp.LessOrEqual
        | DepthAccess.DepthReadOnly => CompareOp.Equal
        | DepthAccess.DepthReadOnlyTransparent => CompareOp.LessOrEqual
        | DepthAccess.NoDepth => CompareOp.Always },
    blend := settings.color_blend_attachment_state,
    samples := settings.samples,
    front_face := FrontFace.Clockwise,
    vertex_buffer_descriptions := settings.vertex_buffer_descriptions }

/-- The settings SimpleTextureShader::new passes to load_pipeline
(simple_texture.rs): DepthReadOnlyTransparent, the three vertex buffers,
additive blend, and the requested sample count. -/
def simple_texture_pipeline_settings (samples : SampleCount) : PipelineSettings :=
  { depth_access := DepthAccess.DepthReadOnlyTransparent,
    vertex_buffer_descriptions :=
      [VertexBufferKind.modelVertex, VertexBufferKind.textureCoords,
       VertexBufferKind.lightmapTextureCoords],
    color_blend_attachment_state := { blend := some AttachmentBlend.additive },
    samples := samples }

/-- The settings SolidColorShader::new passes to load_pipeline
(solid_color.rs): DepthWrite and the model vertex buffer. The source
also writes a backface_culling field that the loader settings struct
does not declare; the remaining loader fields take their defaults. -/
def solid_color_pipeline_settings : PipelineSettings :=
  { depth_access := DepthAccess.DepthWrite,
    vertex_buffer_descriptions := [VertexBufferKind.modelVertex] }

/-- The pipeline kinds referenced under src/. -/
inductive VulkanPipelineType where
  | SimpleTexture
  | ColorBox
deriving DecidableEq

/-- Modelled from the spec: the vulkan pipeline module root
(load_all_pipelines) is not under src/; per the spec catalog the
SimpleTexture kind is built by SimpleTextureShader and the ColorBox kind
by SolidColorShader, at the default sample count. -/
def vulkan_pipeline_settings : VulkanPipelineType → PipelineSettings
  | VulkanPipelineType.SimpleTexture => simple_texture_pipeline_settings SampleCount.Sample1
  | VulkanPipelineType.ColorBox => solid_color_pipeline_settings

/-! ## The frame trace (vulkan.rs)

draw_frame_infallible records commands into a command buffer; the
embedding replays the same control flow and emits the corresponding
abstract commands in order. -/

/-- Cull modes set under src/. -/
inductive CullMode where
  | None | Back
deriving DecidableEq

/-- What a bound descriptor set holds. -/
inductive DescriptorContent where
  | mvp
  | material
  | lightmap (fallback : Bool) (index : Option Nat)
  | colorBox (color : ℚ × ℚ × ℚ × ℚ)
deriving DecidableEq

/-- The source a vertex binding comes from: the four-vertex box of
draw_box, or the buffers of a geometry (flagging whether the texture
coordinate buffer stood in for missing lightmap texture coordinates). -/
inductive VertexSource where
  | box (x y w h : ℚ)
  | geometry (lightmap_texture_coords_missing : Bool)
deriving DecidableEq

/-- One abstract command. bindDescriptorSets records the index of the
pipeline set layout the descriptor was allocated from and the first_set
index it was bound at. -/
inductive DrawCommand where
  | beginRendering
  | setViewport (x y w h : ℚ)
  | setCullMode (mode : CullMode)
  | bindDescriptorSets (layout_index : Nat) (first_set : Nat) (content : DescriptorContent)
  | bindIndexBuffer (len : Nat)
  | bindVertexBuffers (source : VertexSource)
  | bindPipelineGraphics (kind : VulkanPipelineType)
  | drawIndexed (index_count : Nat)
  | endRendering
deriving DecidableEq

/-- draw_box (vulkan.rs): binds the color uniform set (layout 1, bound
at 1), cull mode none, the six box indices, the four box vertices, the
ColorBox pipeline, and draws. -/
def draw_box (x y w h : ℚ) (color : ℚ × ℚ × ℚ × ℚ) : List DrawCommand :=
  [DrawCommand.bindDescriptorSets 1 1 (DescriptorContent.colorBox color),
   DrawCommand.setCullMode CullMode.None,
   DrawCommand.bindIndexBuffer 6,
   DrawCommand.bindVertexBuffers (VertexSource.box x y w h),
   DrawCommand.bindPipelineGraphics VulkanPipelineType.ColorBox,
   DrawCommand.drawIndexed 6]

/-- upload_mvp_data (vulkan.rs): allocates from set layout 0 and binds
at first_set 0. -/
def upload_mvp_data : List DrawCommand :=
  [DrawCommand.bindDescriptorSets 0 0 DescriptorContent.mvp]

/-- upload_lightmap_data (vulkan.rs): the lightmap image is the one the
current BSP holds for the desired index, else the fallback white image;
the descriptor is allocated from set layout index 2 of the SimpleTexture
pipeline but bound with first_set 1, as in the source. -/
def upload_lightmap_data (r : Renderer) (lightmap_index : Option Nat) : List DrawCommand :=
  let resolved :=
    (r.current_bsp.bind (fun b => r.bsps.get? b)).bind (fun b =>
      lightmap_index.bind (fun i =>
        if b.vulkan.lightmap_images.contains i then some i else none))
  [DrawCommand.bindDescriptorSets 2 1 (DescriptorContent.lightmap resolved.isNone lightmap_index)]

/-- VulkanSimpleShaderMaterial::generate_commands (simple_shader.rs):
binds the SimpleTexture pipeline, back-face culling, the material set
(layout 1, bound at 1) and issues the indexed draw. -/
def simple_shader_generate_commands (index_count : Nat) : List DrawCommand :=
  [DrawCommand.bindPipelineGraphics VulkanPipelineType.SimpleTexture,
   DrawCommand.setCullMode CullMode.Back,
   DrawCommand.bindDescriptorSets 1 1 DescriptorContent.material,
   DrawCommand.drawIndexed index_count]

/-- Whether the shader of a geometry resolves to an opaque pipeline in
the registry (the draw loop filters its geometry-shader iterator with
the is_transparent flag; the source panics on an unresolved shader path,
which insertion-time validation rules out, and such geometries are
filtered out here). -/
def geometry_not_transparent (r : Renderer) (g : Geometry) : Bool :=
  match r.shaders.get? g.shader with
  | some s => ! s.is_transparent
  | none => false

/-- The opaque geometry loop of draw_frame_infallible: walks the opaque
geometries in order, keeping the currently bound lightmap (an Option of
an Option, none before any bind); the desired lightmap is forced to none
in fullbright; on change the lightmap descriptor is re-uploaded; then the
index and vertex buffers are bound (the texture coordinate buffer stands
in when lightmap texture coordinates are missing) and the material
generates its commands. -/
def opaque_pass (r : Renderer) (fullbright : Bool) :
    Option (Option Nat) → List Geometry → List DrawCommand
  | _, [] => []
  | current_lightmap, g :: rest =>
    let desired_lightmap := if fullbright then none else g.lightmap_index
    let rebind :=
      if current_lightmap ≠ some desired_lightmap then
        upload_lightmap_data r desired_lightmap
      else []
    rebind ++
    [DrawCommand.bindIndexBuffer g.index_len,
     DrawCommand.bindVertexBuffers (VertexSource.geometry (! g.has_lightmap_texture_coords))] ++
    simple_shader_generate_commands g.index_len ++
    opaque_pass r fullbright (some desired_lightmap) rest

/-- The per-viewport body of draw_frame_infallible: set the viewport
sub-rectangle and cull mode, draw the full-viewport fog box when the
cluster containing the camera names a loaded sky, upload the MVP uniform,
then run the opaque pass over the opaque geometries of the current BSP. -/
def viewport_commands (r : Renderer) (bsp : BSP) (width height : ℚ)
    (vp : PlayerViewport) : List DrawCommand :=
  let sky :=
    ((bsp.bsp_data.find_cluster.bind (fun c => (bsp.bsp_data.clusters.get? c))).bind
      (fun c => c.sky)).bind (fun s => r.skies.get? s)
  [DrawCommand.setViewport (vp.rel_x * width) (vp.rel_y * height)
     (vp.rel_width * width) (vp.rel_height * height),
   DrawCommand.setCullMode CullMode.None] ++
  (match sky with
   | some sky =>
     draw_box 0 0 1 1 (sky.outdoor_fog_color.1, sky.outdoor_fog_color.2.1, sky.outdoor_fog_color.2.2, 1)
   | none => []) ++
  upload_mvp_data ++
  opaque_pass r vp.camera.fullbright none (bsp.geometries.filter (geometry_not_transparent r))

/-- draw_split_screen_bars (vulkan.rs): nothing with at most one player
viewport; otherwise a full-backbuffer viewport is set, a horizontal bar
of thickness 2 scaled by max(1, min(width/640, height/480)) logical
pixels is drawn centered at half height, and with more than two
viewports a vertical bar at half width (half height starting at the
middle with exactly three viewports, full height otherwise). -/
def draw_split_screen_bars (viewport_count : Nat) (width height : ℚ) : List DrawCommand :=
  if viewport_count ≤ 1 then []
  else
    let color : ℚ × ℚ × ℚ × ℚ := (0, 0, 0, 1)
    let base_thickness : ℚ := 2
    let scale := ((width / 640) ⊓ (height / 480)) ⊔ 1
    let line_thickness_horizontal := base_thickness / height * scale
    let line_thickness_vertical := base_thickness / width * scale
    [DrawCommand.setViewport 0 0 width height] ++
    draw_box 0 (1/2 - line_thickness_horizontal / 2) 1 line_thickness_horizontal color ++
    (if viewport_count > 2 then
      let y : ℚ := if viewport_count = 3 then 1/2 else 0
      let line_height : ℚ := if viewport_count = 3 then 1/2 else 1
      draw_box (1/2 - line_thickness_vertical / 2) y line_thickness_vertical line_height color
    else [])

/-- draw_frame_infallible (vulkan.rs), as the trace of emitted commands:
the render pass is begun (clearing color and depth), each configured
player viewport is processed in order against the current BSP (the
default BSP when none is current), the split-screen bars are drawn, and
the pass ends. -/
def draw_frame_commands (r : Renderer) : List DrawCommand :=
  let bsp := ((r.current_bsp.bind (fun f => r.bsps.get? f)).getD BSP.default)
  let width : ℚ := r.current_resolution.width
  let height : ℚ := r.current_resolution.height
  [DrawCommand.beginRendering] ++
  (r.player_viewports.map (viewport_commands r bsp width height)).flatten ++
  draw_split_screen_bars r.player_viewports.length width height ++
  [DrawCommand.endRendering]

/-! ## Helper observations on results and traces -/

/-- Whether a registry call failed. -/
def is_err (e : Except Error Unit) : Bool :=
  match e with
  | Except.error _ => true
  | Except.ok _ => false

/-- Whether a registry call failed with the NotFound kind of the spec
taxonomy. -/
def is_not_found_error (e : Except Error Unit) : Bool :=
  match e with
  | Except.error (Error.NotFound _) => true
  | _ => false

/-- Whether a registry call failed with the InvalidData kind. -/
def is_invalid_data_error (e : Except Error Unit) : Bool :=
  match e with
  | Except.error (Error.InvalidData _) => true
  | _ => false

/-- Some material of the BSP parameter set names a shader path that is
not a key of the shaders mapping (the negation of the condition the
load step checks). -/
def has_missing_shader (r : Renderer) (p : AddBSPParameter) : Bool :=
  ! (p.lightmap_sets.all (fun s => s.materials.all (fun m => r.shaders.containsKey m.shader)))

/-- Some material of the BSP parameter set carries lightmap vertices. -/
def has_lightmap_vertices (p : AddBSPParameter) : Bool :=
  p.lightmap_sets.any (fun s => s.materials.any (fun m => m.lightmap_vertices.isSome))

/-- Number of MVP uniform uploads in a trace. -/
def mvp_upload_count (cmds : List DrawCommand) : Nat :=
  cmds.countP (fun c =>
    match c with
    | DrawCommand.bindDescriptorSets _ _ DescriptorContent.mvp => true
    | _ => false)

/-- Number of indexed draws in a trace. -/
def draw_indexed_count (cmds : List DrawCommand) : Nat :=
  cmds.countP (fun c =>
    match c with
    | DrawCommand.drawIndexed _ => true
    | _ => false)

/-- Number of graphics pipeline binds of the given kind in a trace. -/
def pipeline_bind_count (k : VulkanPipelineType) (cmds : List DrawCommand) : Nat :=
  cmds.countP (fun c =>
    match c with
    | DrawCommand.bindPipelineGraphics k2 => k2 == k
    | _ => false)

/-- The (set layout index, first_set index) pairs of the lightmap
descriptor binds of a trace, in order. -/
def lightmap_bind_slots (cmds : List DrawCommand) : List (Nat × Nat) :=
  cmds.filterMap (fun c =>
    match c with
    | DrawCommand.bindDescriptorSets li fs (DescriptorContent.lightmap _ _) => some (li, fs)
    | _ => none)

/-- The desired lightmap indices of the lightmap descriptor binds of a
trace, in order. -/
def lightmap_bind_indices (cmds : List DrawCommand) : List (Option Nat) :=
  cmds.filterMap (fun c =>
    match c with
    | DrawCommand.bindDescriptorSets _ _ (DescriptorContent.lightmap _ i) => some i
    | _ => none)

/-! ## Spec-side definitions (stated from the words of the spec, for
comparison against the embedded source) -/

/-- The four-mode depth matrix of the spec: DepthWrite compares at most
and writes; DepthReadOnly compares equal without writing;
DepthReadOnlyTransparent compares at most without writing; NoDepth
always passes without writing. -/
def depth_matrix_spec : DepthAccess → DepthState
  | DepthAccess.DepthWrite => { write_enable := true, compare_op := CompareOp.LessOrEqual }
  | DepthAccess.DepthReadOnly => { write_enable := false, compare_op := CompareOp.Equal }
  | DepthAccess.DepthReadOnlyTransparent => { write_enable := false, compare_op := CompareOp.LessOrEqual }
  | DepthAccess.NoDepth => { write_enable := false, compare_op := CompareOp.Always }

/-- The amended contract of set_current_bsp: with some path, success
exactly when the path is a key of the bsps mapping (the current BSP then
becomes that path), and otherwise a DataError with the state untouched;
with none, success and the current BSP is cleared. -/
def set_current_bsp_spec (r : Renderer) : Option String → Except Error Unit × Renderer
  | some p =>
    if r.bsps.containsKey p then
      (Except.ok (), { r with current_bsp := some p })
    else
      (Except.error (Error.DataError ("cannot set current BSP to " ++ p ++ ": that BSP is not loaded")), r)
  | none => (Except.ok (), { r with current_bsp := none })

/-! ## Concrete fixtures -/

/-- A fresh renderer as constructed at 640 by 480 (every mapping empty,
no viewports configured, no current BSP). -/
def empty_renderer : Renderer :=
  { player_viewports := [],
    bitmaps := PathMap.empty,
    shaders := PathMap.empty,
    geometries := PathMap.empty,
    skies := PathMap.empty,
    bsps := PathMap.empty,
    current_bsp := none,
    current_resolution := { width := 640, height := 480 } }

/-- The bitmap parameter of spec scenario S2: one A8 2D sub-bitmap of
2 by 2 pixels, one mip level, four data bytes, no sequences. -/
def s2_bitmap_parameter : AddBitmapParameter :=
  { bitmaps := [{
      format := BitmapFormat.A8,
      bitmap_type := BitmapType.Dim2D,
      resolution := { width := 2, height := 2 },
      mipmap_count := 1,
      data := [0x00, 0x55, 0xAA, 0xFF] }],
    sequences := [] }

/-- A basic environment shader parameter with no base bitmap (the
default white texture stands in, so validation passes on any renderer). -/
def basic_shader_parameter : AddShaderParameter :=
  { data := AddShaderData.BasicShader
      { bitmap := none, shader_type := ShaderType.Environment } }

/-- BSP parameters whose single material names the unloaded shader s
(no lightmap data anywhere, so bsp.rs validation passes). -/
def missing_shader_bsp_parameter : AddBSPParameter :=
  { lightmap_bitmap := none,
    lightmap_sets := [{
      lightmap_index := none,
      materials := [{
        shader_vertices := [],
        lightmap_vertices := none,
        indices := [],
        shader := "s" }] }] }

/-- BSP parameters with no lightmap bitmap whose single material carries
lightmap vertices of the same length as its shader vertices (both
empty). -/
def lightmap_vertices_bsp_parameter : AddBSPParameter :=
  { lightmap_bitmap := none,
    lightmap_sets := [{
      lightmap_index := none,
      materials := [{
        shader_vertices := [],
        lightmap_vertices := some [],
        indices := [],
        shader := "s" }] }] }

/-- A loaded opaque shader record. -/
def opaque_shader : Shader :=
  { shader_type := ShaderType.Environment, is_transparent := false, base_bitmap := none }

/-- A loaded geometry drawing one triangle through the shader named
shader, with the given lightmap index. -/
def test_geometry (lm : Option Nat) (tc : Bool) : Geometry :=
  { shader := "shader", lightmap_index := lm, index_len := 3,
    vertex_count := 3, has_lightmap_texture_coords := tc }

/-- A minimal BSP with one opaque geometry and no clusters. -/
def single_geometry_bsp : BSP :=
  { geometries := [test_geometry none false],
    bsp_data := { clusters := [] },
    vulkan := { lightmap_images := [] } }

/-- A renderer showing the minimal BSP through one full-window viewport. -/
def renderer_one_geometry : Renderer :=
  { empty_renderer with
    player_viewports := [PlayerViewport.default],
    shaders := [("shader", opaque_shader)],
    bsps := [("bsp", single_geometry_bsp)],
    current_bsp := some "bsp" }

/-- A BSP with three opaque geometries: two on lightmap 0 followed by
one on lightmap 1, with lightmap images for both indices. -/
def lightmap_bsp : BSP :=
  { geometries := [test_geometry (some 0) true, test_geometry (some 0) true,
                   test_geometry (some 1) true],
    bsp_data := { clusters := [] },
    vulkan := { lightmap_images := [0, 1] } }

/-- A renderer showing the lightmap BSP through one full-window viewport. -/
def renderer_lightmaps : Renderer :=
  { empty_renderer with
    player_viewports := [PlayerViewport.default],
    shaders := [("shader", opaque_shader)],
    bsps := [("bsp", lightmap_bsp)],
    current_bsp := some "bsp" }

/-- The same renderer with the camera in fullbright mode. -/
def renderer_lightmaps_fullbright : Renderer :=
  { renderer_lightmaps with
    player_viewports := [{ PlayerViewport.default with
      camera := { Camera.default with fullbright := true } }] }

/-! ## Helper lemmas -/

/-- With no lightmap bitmap, a material list only passes the material
loop of AddBSPParameter::validate when no material carries lightmap
vertices. -/
theorem validate_materials_ok_no_lightmap_vertices :
    ∀ ms : List AddBSPParameterLightmapMaterial,
      validate_materials false ms = Except.ok () →
      ms.all (fun m => m.lightmap_vertices.isNone) = true := by
  intro ms
  induction ms with
  | nil => intro _; rfl
  | cons m rest ih =>
    intro h
    simp only [validate_materials] at h
    cases hm : m.lightmap_vertices with
    | some lv =>
      rw [hm] at h
      by_cases hl : lv.length = m.shader_vertices.length
      · simp [hl] at h
      · simp [hl] at h
    | none =>
      rw [hm] at h
      simp only [List.all_cons, hm, Option.isNone_none, Bool.true_and]
      exact ih h

/-- With no lightmap bitmap, a lightmap-set list only passes
AddBSPParameter::validate when no material of any set carries lightmap
vertices. -/
theorem validate_lightmap_sets_none_ok :
    ∀ sets : List AddBSPParameterLightmapSet,
      validate_lightmap_sets none sets = Except.ok () →
      sets.all (fun s => s.materials.all (fun m => m.lightmap_vertices.isNone)) = true := by
  intro sets
  induction sets with
  | nil => intro _; rfl
  | cons s rest ih =>
    intro h
    simp only [validate_lightmap_sets] at h
    cases hi : s.lightmap_index with
    | some bi => rw [hi] at h; simp at h
    | none =>
      rw [hi] at h
      simp only [Option.isSome_none] at h
      cases hv : validate_materials false s.materials with
      | error e => rw [hv] at h; simp at h
      | ok u =>
        cases u
        rw [hv] at h
        simp only [List.all_cons, Bool.and_eq_true]
        exact And.intro (validate_materials_ok_no_lightmap_vertices s.materials hv) (ih h)

/-! ## Claims -/

/-- Claim C1 (code bug): the claim states that add_bitmap fails with
AlreadyExists when the path is already a key of any registry mapping,
and in particular that a second add_bitmap with the same path fails; the
same for add_shader. In the source, the duplicate checks of add_bitmap
and add_shader consult the bsps mapping instead of their own, so a
second add with the same path succeeds again and silently replaces the
entry, against the doc comments and error messages of both methods
(replacing is "not yet supported"). Evaluated at scenario S2 of the
spec: both second calls return Ok. -/
theorem duplicate_add_bitmap_succeeds_bug :
    (Renderer.add_bitmap empty_renderer "b" s2_bitmap_parameter).1 = Except.ok () ∧
    ((Renderer.add_bitmap empty_renderer "b" s2_bitmap_parameter).2).bitmaps.containsKey "b" = true ∧
    (Renderer.add_bitmap (Renderer.add_bitmap empty_renderer "b" s2_bitmap_parameter).2 "b"
      s2_bitmap_parameter).1 = Except.ok () ∧
    (Renderer.add_shader empty_renderer "s" basic_shader_parameter).1 = Except.ok () ∧
    ((Renderer.add_shader empty_renderer "s" basic_shader_parameter).2).shaders.containsKey "s" = true ∧
    (Renderer.add_shader (Renderer.add_shader empty_renderer "s" basic_shader_parameter).2 "s"
      basic_shader_parameter).1 = Except.ok () := by
  decide

/-- Claim C2 (confirmed, against the spec-modelled load step): when some
material of the BSP parameter set names a shader path that is not a key
of the shaders mapping, and the path is fresh and bsp.rs validation
passes, add_bsp fails with InvalidData and the renderer is unchanged. -/
theorem add_bsp_missing_shader_invalid_data :
    ∀ (r : Renderer) (path : String) (p : AddBSPParameter),
      r.bsps.containsKey path = false →
      AddBSPParameter.validate p r = Except.ok () →
      has_missing_shader r p = true →
      Renderer.add_bsp r path p =
        (Except.error (Error.InvalidData "BSP refers to a shader which is not loaded in the renderer"), r) := by
  intro r path p h1 h2 h3
  have hall : p.lightmap_sets.all
      (fun s => s.materials.all (fun m => r.shaders.containsKey m.shader)) = false := by
    unfold has_missing_shader at h3
    exact Bool.not_eq_true _ ▸ (by simpa using h3)
  simp [Renderer.add_bsp, h1, h2, BSP.load_from_parameters, hall]

/-- Witness for claim C2, at a renderer with no shaders and a BSP
parameter naming the unloaded shader s. -/
theorem add_bsp_missing_shader_invalid_data_witness :
    Renderer.add_bsp empty_renderer "m" missing_shader_bsp_parameter =
      (Except.error (Error.InvalidData "BSP refers to a shader which is not loaded in the renderer"),
       empty_renderer) :=
  add_bsp_missing_shader_invalid_data empty_renderer "m" missing_shader_bsp_parameter
    (by decide) (by decide) (by decide)

/-- Claim C6 (confirmed): the depth state load_pipeline builds follows
the four-mode matrix of the spec exactly, for every settings value. -/
theorem depth_access_matrix :
    ∀ s : PipelineSettings, (load_pipeline s).depth = depth_matrix_spec s.depth_access := by
  intro s
  rcases s with ⟨da, v, b, smp⟩
  cases da <;> rfl

/-- Claim C8 (confirmed): with one viewport no bars are drawn; with two,
a full-width horizontal bar of thickness 2 (scaled by
max(1, min(width/640, height/480)) and converted to relative units by
the height) centered at half height; with three, additionally a vertical
bar at half width of half height starting at the middle; with four, the
vertical bar is full height. -/
theorem split_screen_bars_layout :
    ∀ w h : ℚ,
      draw_split_screen_bars 1 w h = [] ∧
      draw_split_screen_bars 2 w h =
        DrawCommand.setViewport 0 0 w h ::
        draw_box 0 (1/2 - (2 / h * (((w / 640) ⊓ (h / 480)) ⊔ 1)) / 2) 1
          (2 / h * (((w / 640) ⊓ (h / 480)) ⊔ 1)) (0, 0, 0, 1) ∧
      draw_split_screen_bars 3 w h =
        DrawCommand.setViewport 0 0 w h ::
        (draw_box 0 (1/2 - (2 / h * (((w / 640) ⊓ (h / 480)) ⊔ 1)) / 2) 1
          (2 / h * (((w / 640) ⊓ (h / 480)) ⊔ 1)) (0, 0, 0, 1) ++
         draw_box (1/2 - (2 / w * (((w / 640) ⊓ (h / 480)) ⊔ 1)) / 2) (1/2)
          (2 / w * (((w / 640) ⊓ (h / 480)) ⊔ 1)) (1/2) (0, 0, 0, 1)) ∧
      draw_split_screen_bars 4 w h =
        DrawCommand.setViewport 0 0 w h ::
        (draw_box 0 (1/2 - (2 / h * (((w / 640) ⊓ (h / 480)) ⊔ 1)) / 2) 1
          (2 / h * (((w / 640) ⊓ (h / 480)) ⊔ 1)) (0, 0, 0, 1) ++
         draw_box (1/2 - (2 / w * (((w / 640) ⊓ (h / 480)) ⊔ 1)) / 2) 0
          (2 / w * (((w / 640) ⊓ (h / 480)) ⊔ 1)) 1 (0, 0, 0, 1)) := by
  intro w h
  exact ⟨rfl, rfl, rfl, rfl⟩

/-- Claim C9 counterexample: setting the current BSP to an unloaded path
on a fresh renderer fails, but with the DataError kind built by
from_data_error_string, not with a NotFound kind. -/
theorem set_current_bsp_not_found_counterexample :
    is_not_found_error (Renderer.set_current_bsp empty_renderer (some "x")).1 = false ∧
    is_err (Renderer.set_current_bsp empty_renderer (some "x")).1 = true ∧
    (Renderer.set_current_bsp empty_renderer (some "x")).1 =
      Except.error (Error.DataError "cannot set current BSP to x: that BSP is not loaded") ∧
    (Renderer.set_current_bsp empty_renderer (some "x")).2 = empty_renderer := by
  decide

/-- Claim C9 (amended): set_current_bsp with some path fails with a
DataError (the data-error kind, where the spec says NotFound) when the
path is not a key of the bsps mapping, leaving the renderer unchanged;
with none it always succeeds and clears the current BSP; on success the
current BSP becomes the given path. Stated as equality with the
spec-side contract for every renderer and argument. -/
theorem set_current_bsp_behavior_amended :
    ∀ (r : Renderer) (path : Option String),
      Renderer.set_current_bsp r path = set_current_bsp_spec r path := by
  intro r path
  cases path with
  | none => rfl
  | some p =>
    unfold Renderer.set_current_bsp set_current_bsp_spec
    cases hfind : r.bsps.find? (fun f => f.1 == p) with
    | none =>
      have hall := List.find?_eq_none.mp hfind
      have hc : r.bsps.containsKey p = false := by
        rw [PathMap.containsKey]
        rw [List.any_eq_false]
        intro x hx
        simpa using hall x hx
      simp [hfind, hc, Error.from_data_error_string]
    | some e =>
      have he := List.find?_some hfind
      have he2 : e.1 = p := by simpa using he
      have hc : r.bsps.containsKey p = true := by
        rw [PathMap.containsKey]
        rw [List.any_eq_true]
        exact ⟨e, List.mem_of_find?_eq_some hfind, he⟩
      simp [hfind, hc, he2]

/-- Claim C10 (confirmed): any BSP parameter set with no lightmap bitmap
in which some material carries lightmap vertices is rejected by add_bsp
with nothing inserted, for every renderer state and path (in particular
when the lightmap vertex count equals the shader vertex count). -/
theorem lightmap_vertices_without_bitmap_rejected :
    ∀ (r : Renderer) (path : String) (p : AddBSPParameter),
      p.lightmap_bitmap = none →
      has_lightmap_vertices p = true →
      is_err (Renderer.add_bsp r path p).1 = true ∧ (Renderer.add_bsp r path p).2 = r := by
  intro r path p hb hv
  unfold Renderer.add_bsp
  by_cases hdup : r.bsps.containsKey path = true
  · simp [hdup, is_err]
  · simp only [Bool.not_eq_true] at hdup
    cases hval : AddBSPParameter.validate p r with
    | error e => simp [hdup, hval, is_err]
    | ok u =>
      cases u
      exfalso
      unfold AddBSPParameter.validate at hval
      rw [hb] at hval
      have hall := validate_lightmap_sets_none_ok p.lightmap_sets hval
      unfold has_lightmap_vertices at hv
      simp only [List.any_eq_true] at hv
      obtain ⟨s, hs, m, hm, hsome⟩ := hv
      simp only [List.all_eq_true] at hall
      have hnone := hall s hs m hm
      rw [Option.isNone_iff_eq_none] at hnone
      rw [hnone] at hsome
      simp at hsome

/-- Witness for claim C10, at a parameter set whose single material has
empty lightmap vertices matching its empty shader vertices (equal
counts) and no lightmap bitmap. -/
theorem lightmap_vertices_without_bitmap_rejected_witness :
    is_err (Renderer.add_bsp empty_renderer "m" lightmap_vertices_bsp_parameter).1 = true ∧
    (Renderer.add_bsp empty_renderer "m" lightmap_vertices_bsp_parameter).2 = empty_renderer :=
  lightmap_vertices_without_bitmap_rejected empty_renderer "m" lightmap_vertices_bsp_parameter
    (by decide) (by decide)

/-- Claim C3 counterexample: the SimpleTexture pipeline bound by the
opaque pass is not built with DepthWrite: its depth access is
DepthReadOnlyTransparent, depth writes are disabled, and the single
SimpleTexture variant carries additive blend. -/
theorem simple_texture_pipeline_counterexample :
    (vulkan_pipeline_settings VulkanPipelineType.SimpleTexture).depth_access ≠
      DepthAccess.DepthWrite ∧
    (load_pipeline (vulkan_pipeline_settings VulkanPipelineType.SimpleTexture)).depth.write_enable
      = false ∧
    (load_pipeline (vulkan_pipeline_settings VulkanPipelineType.SimpleTexture)).blend.blend =
      some AttachmentBlend.additive := by
  decide

/-- Claim C3 (amended): drawing the minimal BSP with one opaque geometry
through one configured viewport issues exactly one indexed draw, binding
the SimpleTexture pipeline exactly once; that pipeline is built with
DepthReadOnlyTransparent (compare at most, depth write disabled) and
additive blend, there being no separate opaque variant. -/
theorem opaque_draw_transparent_pipeline_amended :
    draw_indexed_count (draw_frame_commands renderer_one_geometry) = 1 ∧
    pipeline_bind_count VulkanPipelineType.SimpleTexture
      (draw_frame_commands renderer_one_geometry) = 1 ∧
    (load_pipeline (vulkan_pipeline_settings VulkanPipelineType.SimpleTexture)).depth =
      { write_enable := false, compare_op := CompareOp.LessOrEqual } ∧
    (load_pipeline (vulkan_pipeline_settings VulkanPipelineType.SimpleTexture)).blend.blend =
      some AttachmentBlend.additive := by
  decide

/-- Claim C4 counterexample: the ColorBox pipeline is not built with
NoDepth: SolidColorShader::new passes DepthWrite, so depth writes are
enabled and the compare op is LessOrEqual rather than Always. -/
theorem color_box_pipeline_counterexample :
    (vulkan_pipeline_settings VulkanPipelineType.ColorBox).depth_access = DepthAccess.DepthWrite ∧
    (load_pipeline (vulkan_pipeline_settings VulkanPipelineType.ColorBox)).depth.write_enable
      = true ∧
    (load_pipeline (vulkan_pipeline_settings VulkanPipelineType.ColorBox)).depth.compare_op ≠
      CompareOp.Always := by
  decide

/-- Claim C4 (amended): the ColorBox pipeline is built with DepthWrite
(compare at most, depth writes enabled), so split-screen bars and fog
boxes drawn through it both test and write the depth buffer; the
split-screen bar pass of a two-viewport frame binds it once. -/
theorem color_box_depth_write_amended :
    (load_pipeline (vulkan_pipeline_settings VulkanPipelineType.ColorBox)).depth =
      { write_enable := true, compare_op := CompareOp.LessOrEqual } ∧
    pipeline_bind_count VulkanPipelineType.ColorBox (draw_split_screen_bars 2 640 480) = 1 := by
  decide

/-- Claim C5 (code bug): walking three opaque geometries on lightmaps
0, 0 and 1 rebinds the lightmap descriptor exactly twice (the repeated
desired lightmap triggers no rebind, and fullbright forces a single
fallback bind with no index), but each rebind allocates the descriptor
from pipeline set layout index 2 while binding it at first_set 1 - not
as descriptor set 2 as the claim and the layout allocation intend. -/
theorem lightmap_rebind_first_set_bug :
    lightmap_bind_slots (draw_frame_commands renderer_lightmaps) = [(2, 1), (2, 1)] ∧
    lightmap_bind_indices (draw_frame_commands renderer_lightmaps) = [some 0, some 1] ∧
    lightmap_bind_indices (draw_frame_commands renderer_lightmaps_fullbright) = [none] := by
  decide

/-- Claim C7 (code bug): a renderer constructed with two viewports
succeeds, but Renderer::new leaves the player viewport vector empty
(Vec::with_capacity only reserves; the population is a TODO), so a frame
trace contains no MVP upload and no draw at all instead of the claimed
two MVP uploads and at least two color-clear-equivalent draws. -/
theorem viewport_mvp_uploads_zero_bug :
    Renderer.new { resolution := { width := 640, height := 480 }, number_of_viewports := 2 } =
      Except.ok empty_renderer ∧
    draw_frame_commands empty_renderer =
      [DrawCommand.beginRendering, DrawCommand.endRendering] ∧
    mvp_upload_count (draw_frame_commands empty_renderer) = 0 ∧
    draw_indexed_count (draw_frame_commands empty_renderer) = 0 := by
  exact ⟨rfl, rfl, rfl, rfl⟩

end Magellanicus
